import Mathlib

/-!
Shallow embedding of the RChat server core (Rust, sqlx/SQLite) for
specification checking.  Database tables are modelled as lists of row
structures; SQL `SELECT ... LIMIT 1` becomes `List.find?`, `COUNT(*)`
becomes `List.countP`, `UPDATE` becomes `List.map`, `DELETE` becomes
`List.filter`, `INSERT` becomes list append.  `i64` columns are `Int`.
Clock values (`Utc::now()`) and generated UUIDs are passed as explicit
parameters.  Timestamps are modelled as `Int` seconds; the RFC3339
parse in the source always succeeds on timestamps the system itself
wrote, which is the case modelled here.  Stateful operations return
`Db × Except AppError α` so that mutations performed before an error
(there is no transaction rollback in the source) stay observable.
-/

set_option maxRecDepth 4000

deriving instance DecidableEq for Except

namespace RChat

/-- SQLite `LOWER` / Rust `eq_ignore_ascii_case` lowercase ASCII letters only. -/
def asciiLowerChar (c : Char) : Char :=
  if 65 ≤ c.toNat ∧ c.toNat ≤ 90 then Char.ofNat (c.toNat + 32) else c

/-- ASCII-only lowercasing of a string, as SQLite `LOWER(?)` does. -/
def asciiLower (s : String) : String :=
  String.mk (s.data.map asciiLowerChar)

/-- `utils/error.rs`: the `AppError` taxonomy.  `Database` stands for an
`sqlx::Error` converted through `#[from]`; `fetch_one` on a missing row
produces it. -/
inductive AppError where
  | Database (msg : String)
  | Auth (msg : String)
  | Unauthorized (msg : String)
  | Forbidden (msg : String)
  | NotFound (msg : String)
  | BadRequest (msg : String)
  | Internal (msg : String)
  | RateLimitExceeded
  | File (msg : String)
  | Validation (msg : String)
deriving DecidableEq

/-- `models/user.rs` `User` row (table `users`). -/
structure UserRow where
  username : String
  password_hash : String
  password_type : String
  word_sequence : Option String
  profile_type : String
  avatar_color : Option String
  created_at : Int
  last_login : Option Int
  login_attempts : Int
  account_locked : Int
  lock_until : Option Int
  is_admin : Int
deriving DecidableEq

/-- `models/server.rs` `Server` row (table `servers`). -/
structure ServerRow where
  name : String
  creator_username : String
  created_at : Int
  is_active : Int
  member_count : Int
  channel_count : Int
deriving DecidableEq

/-- `models/server_member.rs` `ServerMember` row (table `server_members`). -/
structure ServerMemberRow where
  server_name : String
  username : String
  role : String
  joined_at : Int
  last_seen : Int
  is_online : Int
  position : Int
deriving DecidableEq

/-- `models/channel.rs` `Channel` row (table `channels`). -/
structure ChannelRow where
  id : String
  server_name : String
  name : String
  created_at : Int
  is_active : Int
  message_count : Int
  position : Int
deriving DecidableEq

/-- `models/direct_message.rs` `DirectMessage` row (table `direct_messages`). -/
structure DirectMessageRow where
  id : String
  username1 : String
  username2 : String
  created_at : Int
  last_message_at : Option Int
  message_count : Int
  is_active : Int
deriving DecidableEq

/-- `models/message.rs` `Message` row (table `messages`). -/
structure MessageRow where
  id : String
  channel_id : Option String
  dm_id : Option String
  sender_username : String
  content : String
  filtered_content : Option String
  content_type : String
  created_at : Int
  edited_at : Option Int
  is_deleted : Int
  filter_status : String
deriving DecidableEq

/-- `models/file.rs` `File` row (table `files`); only the columns the
moderation cascade touches are needed. -/
structure FileRow where
  id : String
  uploader_username : String
  is_deleted : Int
deriving DecidableEq

/-- Table `file_attachments` (created by `send_message`). -/
structure FileAttachmentRow where
  file_id : String
  message_id : String
  position : Int
deriving DecidableEq

/-- Table `banned_usernames` (the append-only site-ban log). -/
structure BannedUsernameRow where
  username : String
  banned_by : String
  reason : String
deriving DecidableEq

/-- Table `server_bans` (community-level bans). -/
structure ServerBanRow where
  server_name : String
  username : String
  banned_by : String
  reason : Option String
  banned_at : Int
deriving DecidableEq

/-- `models/login_attempt.rs` `LoginAttempt` row (table `login_attempts`). -/
structure LoginAttemptRow where
  id : String
  username : String
  ip_address : String
  success : Int
  timestamp : Int
  attempted_username : Option String
  failure_reason : Option String
deriving DecidableEq

/-- The persistent store behind the `DbPool`: one list per table. -/
structure Db where
  users : List UserRow
  servers : List ServerRow
  serverMembers : List ServerMemberRow
  channels : List ChannelRow
  directMessages : List DirectMessageRow
  messages : List MessageRow
  files : List FileRow
  fileAttachments : List FileAttachmentRow
  bannedUsernames : List BannedUsernameRow
  serverBans : List ServerBanRow
  loginAttempts : List LoginAttemptRow
deriving DecidableEq

/-- The profanity/censoring primitive of the external `rustrict` crate,
consumed by `services/profanity.rs` through the `CensorStr` trait.  The
spec treats it as an external collaborator `filter(text) -> (censoredText,
flagged)`, so it enters the embedding as a pair of opaque functions. -/
structure Rustrict where
  isInappropriate : String → Bool
  censor : String → String

/-- `services/profanity.rs::filter_profanity`. -/
def filter_profanity (rc : Rustrict) (text : String) : String × Bool :=
  if rc.isInappropriate text then (rc.censor text, true) else (text, false)

/-- `services/profanity.rs::contains_profanity`. -/
def contains_profanity (rc : Rustrict) (text : String) : Bool :=
  rc.isInappropriate text

/-- `utils/validation.rs::validate_message_content`. -/
def validate_message_content (content : String) : Except AppError Unit :=
  if content == "" then
    .error (.Validation "Message content cannot be empty")
  else if content.length > 4000 then
    .error (.Validation "Message content must be at most 4000 characters long")
  else
    .ok ()

/-- `services/messaging.rs::MessageTarget`. -/
inductive MessageTarget where
  | Channel
  | DirectMessage
deriving DecidableEq

/-- `services/messaging.rs::SendMessageRequest`. -/
structure SendMessageRequest where
  target_type : MessageTarget
  target_id : String
  content : String
  content_type : String
  file_id : Option String
deriving DecidableEq

/-- `models/message.rs::MessageWithSender`. -/
structure MessageWithSender where
  message : MessageRow
  sender_profile_type : String
  sender_avatar_color : Option String
deriving DecidableEq

/-- `services/messaging.rs::send_channel_message` (private helper of
`send_message`).  `new_message_id` stands for `Uuid::new_v4()`, `now` for
`Utc::now()`. -/
def send_channel_message (rc : Rustrict) (db : Db) (channel_id : String)
    (sender_username : String) (content : String) (content_type : String)
    (file_id : Option String) (new_message_id : String) (now : Int) :
    Db × Except AppError MessageWithSender :=
  match db.channels.find? (fun c => c.id == channel_id) with
  | none => (db, .error (.NotFound "Channel not found"))
  | some channel =>
    let server_name := channel.server_name
    let is_member := db.serverMembers.countP
      (fun m => m.server_name == server_name && m.username == sender_username)
    if is_member = 0 then
      (db, .error (.Unauthorized "You must be a member of the server to send messages"))
    else
      let fp := filter_profanity rc content
      let censored_text := fp.1
      let has_profanity := fp.2
      let filter_status := if has_profanity then "filtered" else "clean"
      let filtered_content := if has_profanity then some censored_text else none
      let message : MessageRow :=
        { id := new_message_id
          channel_id := some channel_id
          dm_id := none
          sender_username := sender_username
          content := content
          filtered_content := filtered_content
          content_type := content_type
          created_at := now
          edited_at := none
          is_deleted := 0
          filter_status := filter_status }
      let db1 : Db := { db with messages := db.messages ++ [message] }
      let db2 : Db :=
        match file_id with
        | some fid =>
          { db1 with fileAttachments :=
              db1.fileAttachments ++ [FileAttachmentRow.mk fid message.id 0] }
        | none => db1
      match db2.users.find? (fun u => u.username == sender_username) with
      | none => (db2, .error (.Database "RowNotFound"))
      | some sender_info =>
        (db2, .ok { message := message
                    sender_profile_type := sender_info.profile_type
                    sender_avatar_color := sender_info.avatar_color })

/-- `services/messaging.rs::send_dm_message` (private helper of
`send_message`). -/
def send_dm_message (db : Db) (dm_id : String) (sender_username : String)
    (content : String) (content_type : String) (file_id : Option String)
    (new_message_id : String) (now : Int) :
    Db × Except AppError MessageWithSender :=
  match db.directMessages.find? (fun d => d.id == dm_id) with
  | none => (db, .error (.NotFound "Direct message conversation not found"))
  | some dm =>
    if sender_username ≠ dm.username1 ∧ sender_username ≠ dm.username2 then
      (db, .error (.Unauthorized "You are not part of this conversation"))
    else
      let message : MessageRow :=
        { id := new_message_id
          channel_id := none
          dm_id := some dm_id
          sender_username := sender_username
          content := content
          filtered_content := none
          content_type := content_type
          created_at := now
          edited_at := none
          is_deleted := 0
          filter_status := "clean" }
      let db1 : Db := { db with messages := db.messages ++ [message] }
      let db2 : Db :=
        match file_id with
        | some fid =>
          { db1 with fileAttachments :=
              db1.fileAttachments ++ [FileAttachmentRow.mk fid message.id 0] }
        | none => db1
      match db2.users.find? (fun u => u.username == sender_username) with
      | none => (db2, .error (.Database "RowNotFound"))
      | some sender_info =>
        (db2, .ok { message := message
                    sender_profile_type := sender_info.profile_type
                    sender_avatar_color := sender_info.avatar_color })

/-- `services/messaging.rs::send_message`: dispatch on the target kind. -/
def send_message (rc : Rustrict) (db : Db) (request : SendMessageRequest)
    (sender_username : String) (new_message_id : String) (now : Int) :
    Db × Except AppError MessageWithSender :=
  match request.target_type with
  | .Channel =>
    send_channel_message rc db request.target_id sender_username
      request.content request.content_type request.file_id new_message_id now
  | .DirectMessage =>
    send_dm_message db request.target_id sender_username
      request.content request.content_type request.file_id new_message_id now

/-- `services/messaging.rs::delete_message`. -/
def delete_message (db : Db) (target_type : MessageTarget) (target_id : String)
    (message_id : String) (requester_username : String) :
    Db × Except AppError MessageRow :=
  match db.messages.find? (fun m => m.id == message_id) with
  | none => (db, .error (.NotFound "Message not found"))
  | some message =>
    let target_ok :=
      match target_type with
      | .Channel => message.channel_id == some target_id
      | .DirectMessage => message.dm_id == some target_id
    if target_ok = false then
      (db, .error (match target_type with
        | .Channel => .BadRequest "Message does not belong to this channel"
        | .DirectMessage => .BadRequest "Message does not belong to this DM"))
    else
      let soft_deleted : List MessageRow := db.messages.map
        (fun m => if m.id == message_id then { m with is_deleted := 1 } else m)
      let soft_delete : Db × Except AppError MessageRow :=
        ({ db with messages := soft_deleted }, .ok message)
      if message.sender_username == requester_username then
        soft_delete
      else
        match db.users.find? (fun u => u.username == requester_username) with
        | none => (db, .error (.Database "RowNotFound"))
        | some requester =>
          if requester.is_admin = 1 then
            soft_delete
          else
            match target_type with
            | .DirectMessage =>
              (db, .error (.Unauthorized "You do not have permission to delete this message"))
            | .Channel =>
              match db.channels.find? (fun c => c.id == target_id) with
              | none => (db, .error (.NotFound "Channel not found"))
              | some channel =>
                match db.serverMembers.find? (fun m =>
                    m.server_name == channel.server_name &&
                    m.username == requester_username) with
                | some member =>
                  if member.role == "admin" then
                    soft_delete
                  else
                    (db, .error (.Unauthorized "You do not have permission to delete this message"))
                | none =>
                  (db, .error (.Unauthorized "You do not have permission to delete this message"))

/-- `services/channel.rs::delete_channel`.  The guard counts the active
channels of the caller-supplied `server_name`; the soft delete itself is
keyed only on `channel_id`. -/
def delete_channel (db : Db) (channel_id : String) (server_name : String) :
    Db × Except AppError Unit :=
  let channel_count := db.channels.countP
    (fun c => c.server_name == server_name && c.is_active == 1)
  if channel_count ≤ 1 then
    (db, .error (.BadRequest "Cannot delete the last channel"))
  else
    let deactivated : List ChannelRow := db.channels.map
      (fun c => if c.id == channel_id then { c with is_active := 0 } else c)
    let decremented : List ServerRow := db.servers.map
      (fun s => if s.name == server_name then { s with channel_count := s.channel_count - 1 } else s)
    ({ db with channels := deactivated, servers := decremented }, .ok ())

/-- `utils/permissions.rs::check_site_admin` (`fetch_one`: a missing user
row surfaces as a database error). -/
def check_site_admin (db : Db) (username : String) : Except AppError Bool :=
  match db.users.find? (fun u => u.username == username) with
  | none => .error (.Database "RowNotFound")
  | some u => .ok (u.is_admin == 1)

/-- `utils/permissions.rs::check_server_admin`. -/
def check_server_admin (db : Db) (username : String) (server_name : String) :
    Except AppError Bool :=
  let count := db.serverMembers.countP (fun m =>
    m.server_name == server_name && m.username == username && m.role == "admin")
  .ok (count > 0)

/-- `utils/permissions.rs::check_channel_admin`. -/
def check_channel_admin (db : Db) (username : String) (channel_id : String) :
    Except AppError Bool :=
  let count := (db.serverMembers.map (fun m =>
      db.channels.countP (fun c =>
        m.server_name == c.server_name && c.id == channel_id &&
        m.username == username && m.role == "admin"))).sum
  .ok (count > 0)

/-- `utils/permissions.rs::require_admin`. -/
def require_admin (db : Db) (username : String) (server_name : Option String)
    (channel_id : Option String) : Except AppError Unit := do
  let is_site_admin ← check_site_admin db username
  if is_site_admin then
    return ()
  match server_name, channel_id with
  | some server, _ =>
    let is_server_admin ← check_server_admin db username server
    if is_server_admin = false then
      throw (.Unauthorized "Server admin privileges required")
  | none, some channel =>
    let is_channel_admin ← check_channel_admin db username channel
    if is_channel_admin = false then
      throw (.Unauthorized "Channel admin privileges required")
  | none, none =>
    throw (.Unauthorized "Site admin privileges required")

/-- `services/user_moderation.rs::site_ban_user`: authorization checks,
then the ordered cascade (ban-log insert, then case-insensitive hard
deletes of messages, memberships, conversations, files, and the user
row). -/
def site_ban_user (db : Db) (target_username : String)
    (requester_username : String) : Db × Except AppError Unit :=
  let requester_is_admin : Int :=
    match db.users.find? (fun u => asciiLower u.username == asciiLower requester_username) with
    | some u => u.is_admin
    | none => 0
  if requester_is_admin == 0 then
    (db, .error (.Forbidden "Only site admins can site-ban users"))
  else
    let user_exists := db.users.countP
      (fun u => asciiLower u.username == asciiLower target_username)
    if user_exists = 0 then
      (db, .error (.NotFound "User not found"))
    else if asciiLower target_username == asciiLower requester_username then
      (db, .error (.BadRequest "Cannot ban yourself"))
    else
      let newLog := db.bannedUsernames ++
        [BannedUsernameRow.mk target_username requester_username "Site ban"]
      let keptMessages := db.messages.filter
        (fun m => !(asciiLower m.sender_username == asciiLower target_username))
      let keptMembers := db.serverMembers.filter
        (fun m => !(asciiLower m.username == asciiLower target_username))
      let keptDms := db.directMessages.filter
        (fun d => !(asciiLower d.username1 == asciiLower target_username ||
                    asciiLower d.username2 == asciiLower target_username))
      let keptFiles := db.files.filter
        (fun f => !(asciiLower f.uploader_username == asciiLower target_username))
      let keptUsers := db.users.filter
        (fun u => !(asciiLower u.username == asciiLower target_username))
      ({ db with bannedUsernames := newLog, messages := keptMessages,
                 serverMembers := keptMembers, directMessages := keptDms,
                 files := keptFiles, users := keptUsers }, .ok ())

/-- `services/user_moderation.rs::server_ban_user`. -/
def server_ban_user (db : Db) (server_name : String) (target_username : String)
    (requester_username : String) (reason : Option String) (now : Int) :
    Db × Except AppError Unit :=
  if server_name == "RChat" then
    (db, .error (.BadRequest "Cannot ban users from RChat server"))
  else
    match db.servers.find? (fun s => s.name == server_name) with
    | none => (db, .error (.NotFound "Server not found"))
    | some server =>
      if server.creator_username == target_username then
        (db, .error (.BadRequest "Cannot ban server owner"))
      else
        match db.users.find? (fun u => u.username == requester_username) with
        | none => (db, .error (.Database "RowNotFound"))
        | some requester =>
          let inner : Except AppError Unit :=
            if requester.is_admin = 0 then
              match db.serverMembers.find? (fun m =>
                  m.server_name == server_name && m.username == requester_username) with
              | none => .error (.Unauthorized "Not a member of this server")
              | some requester_member =>
                if requester_member.role ≠ "admin" then
                  .error (.Unauthorized "Server admin privileges required")
                else
                  .ok ()
            else
              .ok ()
          match inner with
          | .error e => (db, .error e)
          | .ok _ =>
            let banned := db.serverBans.countP (fun b =>
              b.server_name == server_name && b.username == target_username)
            if banned > 0 then
              (db, .error (.BadRequest "User is already banned"))
            else
              let newBans := db.serverBans ++
                [ServerBanRow.mk server_name target_username requester_username reason now]
              let keptMembers := db.serverMembers.filter
                (fun m => !(m.server_name == server_name && m.username == target_username))
              ({ db with serverBans := newBans, serverMembers := keptMembers }, .ok ())

/-- `models/user.rs::PasswordType`. -/
inductive PasswordType where
  | Text
  | WordSequence
deriving DecidableEq

/-- `models/user.rs::PasswordType::as_str`. -/
def PasswordType.as_str : PasswordType → String
  | .Text => "text"
  | .WordSequence => "word_sequence"

/-- `models/user.rs::ProfileType`. -/
inductive ProfileType where
  | Identicon (data : String)
  | Person (data : String)
deriving DecidableEq

/-- `models/user.rs::ProfileType::as_str`. -/
def ProfileType.as_str : ProfileType → String
  | .Identicon _ => "identicon"
  | .Person _ => "person"

/-- `models/user.rs::CreateUserRequest`. -/
structure CreateUserRequest where
  username : String
  password : Option String
  word_sequence : Option (List String)
  profile_type : ProfileType
deriving DecidableEq

/-- `models/user.rs::UserResponse`. -/
structure UserResponse where
  username : String
  profile_type : String
  avatar_color : Option String
  created_at : Int
  is_admin : Bool
deriving DecidableEq

/-- `models/user.rs`: `impl From<User> for UserResponse`. -/
def UserResponse.ofUser (user : UserRow) : UserResponse :=
  { username := user.username
    profile_type := user.profile_type
    avatar_color := user.avatar_color
    created_at := user.created_at
    is_admin := user.is_admin == 1 }

/-- `serde_json::to_string` of a `Vec<String>`, as stored in the
`word_sequence` column; the exact rendering is irrelevant to every claim,
only that it is some string derived from the list. -/
def word_seq_json (ws : List String) : String :=
  "[" ++ String.intercalate "," (ws.map (fun w => "\"" ++ w ++ "\"")) ++ "]"

/-- `models/user.rs::User::new` (`now` stands for `Utc::now()`). -/
def User_new (username : String) (password_hash : String)
    (password_type : PasswordType) (word_sequence : Option (List String))
    (profile_type : ProfileType) (is_admin : Bool) (now : Int) : UserRow :=
  { username := username
    password_hash := password_hash
    password_type := password_type.as_str
    word_sequence := word_sequence.map word_seq_json
    profile_type := profile_type.as_str
    avatar_color := match profile_type with
      | .Person color => some color
      | .Identicon _ => none
    created_at := now
    last_login := none
    login_attempts := 0
    account_locked := 0
    lock_until := none
    is_admin := if is_admin then 1 else 0 }

/-- `services/auth.rs::validate_password` (private). -/
def validate_password (password : String) : Except AppError Unit :=
  if password == "" then
    .error (.Validation "Password cannot be empty")
  else if password.length > 128 then
    .error (.Validation "Password must be at most 128 characters long")
  else
    .ok ()

/-- `services/auth.rs::validate_username` (private; unlike the unused
`utils/validation.rs` variant it also consults the site-ban log,
case-insensitively). -/
def auth_validate_username (rc : Rustrict) (db : Db) (username : String) :
    Except AppError Unit :=
  if username == "" then
    .error (.Validation "Username cannot be empty")
  else if username.length > 64 then
    .error (.Validation "Username must be at most 64 characters long")
  else if contains_profanity rc username then
    .error (.Validation "Username contains inappropriate language")
  else
    let is_banned := db.bannedUsernames.countP
      (fun b => asciiLower b.username == asciiLower username)
    if is_banned > 0 then
      .error (.BadRequest "Username is permanently banned")
    else
      .ok ()

/-- `services/server.rs::join_server` (the membership insert copies the
identity's current max `is_online` through `COALESCE(MAX(..), 0)`). -/
def join_server (db : Db) (server_name : String) (username : String)
    (now : Int) : Db × Except AppError ServerRow :=
  match db.servers.find? (fun s => asciiLower s.name == asciiLower server_name) with
  | none => (db, .error (.NotFound "Server not found"))
  | some server =>
    let is_banned := db.serverBans.countP
      (fun b => b.server_name == server.name && b.username == username)
    if is_banned > 0 then
      (db, .error (.Forbidden "You are banned from this server"))
    else
      let member_exists := db.serverMembers.countP
        (fun m => m.server_name == server.name && m.username == username)
      if member_exists > 0 then
        (db, .ok server)
      else
        let prev_online : Int :=
          (((db.serverMembers.filter (fun m => m.username == username)).map
            (fun m => m.is_online)).max?).getD 0
        let member : ServerMemberRow :=
          { server_name := server.name
            username := username
            role := "member"
            joined_at := now
            last_seen := now
            is_online := prev_online
            position := 0 }
        ({ db with serverMembers := db.serverMembers ++ [member] }, .ok server)

/-- `services/direct_message.rs::get_or_create_dm`. -/
def get_or_create_dm (db : Db) (username1 : String) (username2 : String)
    (new_dm_id : String) (now : Int) : Db × Except AppError DirectMessageRow :=
  let user_exists := db.users.countP (fun u => u.username == username2)
  if user_exists = 0 then
    (db, .error (.NotFound "User not found"))
  else
    let uname1 := if username1 > username2 then username2 else username1
    let uname2 := if username1 > username2 then username1 else username2
    match db.directMessages.find? (fun d => d.username1 == uname1 && d.username2 == uname2) with
    | some dm => (db, .ok dm)
    | none =>
      let dm : DirectMessageRow :=
        { id := new_dm_id
          username1 := uname1
          username2 := uname2
          created_at := now
          last_message_at := none
          message_count := 0
          is_active := 1 }
      ({ db with directMessages := db.directMessages ++ [dm] }, .ok dm)

/-- `services/auth.rs::RegisterResponse`. -/
structure RegisterResponse where
  user : UserResponse
  token : String
  word_sequence : Option (List String)
deriving DecidableEq

/-- `services/auth.rs::register_user`.  Password hashing and JWT issuance
are external collaborators (argon2, jsonwebtoken) and enter as the opaque
functions `hash` and `tokenOf`; `now`, `new_dm_id` stand for the clock and
the generated self-DM id. -/
def register_user (rc : Rustrict) (hash : String → String)
    (tokenOf : String → String) (db : Db) (request : CreateUserRequest)
    (now : Int) (new_dm_id : String) : Db × Except AppError RegisterResponse :=
  match auth_validate_username rc db request.username with
  | .error e => (db, .error e)
  | .ok _ =>
    let total_users := db.users.countP (fun u => u.username != "system")
    let is_first_user := total_users = 0
    let username_exists := db.users.countP
      (fun u => asciiLower u.username == asciiLower request.username)
    if username_exists > 0 then
      (db, .error (.BadRequest "Username already exists"))
    else
      let credentials : Except AppError (PasswordType × String × Option (List String)) :=
        match request.password, request.word_sequence with
        | some password, none =>
          match validate_password password with
          | .error e => .error e
          | .ok _ => .ok (.Text, hash password, none)
        | none, some words =>
          if words.length ≠ 7 then
            .error (.Validation "Word sequence must contain exactly 7 words")
          else
            .ok (.WordSequence, hash (String.intercalate " " words), some words)
        | _, _ => .error (.BadRequest "Must provide either password or word sequence")
      match credentials with
      | .error e => (db, .error e)
      | .ok (password_type, password_hash, word_sequence) =>
        let user := User_new request.username password_hash password_type
          word_sequence request.profile_type is_first_user now
        let db1 : Db := { db with users := db.users ++ [user] }
        match join_server db1 "RChat" user.username now with
        | (db2, .error e) => (db2, .error e)
        | (db2, .ok _server) =>
          let db3 := (get_or_create_dm db2 user.username user.username new_dm_id now).1
          (db3, .ok { user := UserResponse.ofUser user
                      token := tokenOf user.username
                      word_sequence := word_sequence })

/-- `services/auth.rs::LoginRequest`. -/
structure LoginRequest where
  username : String
  password : Option String
  word_sequence : Option (List String)
deriving DecidableEq

/-- `services/auth.rs::LoginResponse`. -/
structure LoginResponse where
  user : UserResponse
  token : String
deriving DecidableEq

/-- `models/login_attempt.rs::LoginAttempt::new` (`new_id`, `now` stand for
the generated UUID and `Utc::now()`). -/
def LoginAttempt_new (username : String) (ip_address : String) (success : Bool)
    (attempted_username : Option String) (failure_reason : Option String)
    (new_id : String) (now : Int) : LoginAttemptRow :=
  { id := new_id
    username := username
    ip_address := ip_address
    success := if success then 1 else 0
    timestamp := now
    attempted_username := attempted_username
    failure_reason := failure_reason }

/-- `services/auth.rs::save_login_attempt` (private). -/
def save_login_attempt (db : Db) (attempt : LoginAttemptRow) : Db :=
  { db with loginAttempts := db.loginAttempts ++ [attempt] }

/-- `models/user.rs::User::is_locked` at clock value `now`. -/
def UserRow.is_locked (user : UserRow) (now : Int) : Bool :=
  if user.account_locked == 0 then
    false
  else
    match user.lock_until with
    | some lock_time => now < lock_time
    | none => false

/-- `services/auth.rs::login_user`.  Password verification and token
issuance are external (argon2, jsonwebtoken) and enter as `verify` and
`tokenOf`; `now` is the clock, `attempt_id` the UUID generated for the
recorded attempt.  `ORDER BY timestamp DESC LIMIT 1` reads the most
recent recorded attempt, i.e. the one with the maximal timestamp. -/
def login_user (db : Db) (request : LoginRequest) (ip_address : String)
    (verify : String → String → Bool) (tokenOf : String → String)
    (now : Int) (attempt_id : String) : Db × Except AppError LoginResponse :=
  let last_attempt := ((db.loginAttempts.filter
    (fun a => a.username == request.username)).map (fun a => a.timestamp)).max?
  let throttled : Bool :=
    match last_attempt with
    | some last_time => now - last_time < 3
    | none => false
  if throttled then
    (db, .error .RateLimitExceeded)
  else
    match db.users.find? (fun u => asciiLower u.username == asciiLower request.username) with
    | none =>
      let attempt := LoginAttempt_new request.username ip_address false none
        (some "User not found") attempt_id now
      (save_login_attempt db attempt, .error (.Auth "Invalid credentials"))
    | some user =>
      if user.is_locked now then
        (db, .error (.Auth "Account is locked. Try again later."))
      else
        let password_to_verify : Except AppError String :=
          match request.password, request.word_sequence with
          | some password, none => .ok password
          | none, some words => .ok (String.intercalate " " words)
          | _, _ => .error (.BadRequest "Must provide either password or word sequence")
        match password_to_verify with
        | .error e => (db, .error e)
        | .ok password =>
          if verify password user.password_hash = false then
            let new_attempts := user.login_attempts + 1
            let locked : Int := if new_attempts ≥ 1000 then 1 else 0
            let lock_until : Option Int :=
              if new_attempts ≥ 1000 then some (now + 24 * 3600) else none
            let updatedUsers := db.users.map (fun u =>
              if u.username == user.username then
                { u with login_attempts := new_attempts, account_locked := locked,
                         lock_until := lock_until }
              else u)
            let db1 : Db := { db with users := updatedUsers }
            let attempt := LoginAttempt_new request.username ip_address false
              (some user.username) (some "Invalid password") attempt_id now
            (save_login_attempt db1 attempt, .error (.Auth "Invalid credentials"))
          else
            let updatedUsers := db.users.map (fun u =>
              if u.username == user.username then
                { u with login_attempts := 0, account_locked := 0,
                         lock_until := none, last_login := some now }
              else u)
            let db1 : Db := { db with users := updatedUsers }
            let attempt := LoginAttempt_new request.username ip_address true
              (some user.username) none attempt_id now
            let db2 := save_login_attempt db1 attempt
            let db3 := (join_server db2 "RChat" user.username now).1
            (db3, .ok { user := UserResponse.ofUser user
                        token := tokenOf user.username })

/-- `websocket/events.rs::ServerMessage`: only the variants the
connection/presence engine itself emits are needed here. -/
inductive ServerMessage where
  | UserOnlineStatusChanged (server_name : String) (username : String) (is_online : Bool)
  | Pong
deriving DecidableEq

/-- `websocket/connection.rs::ConnectionManager::set_user_online`: marks
every membership of the identity online (case-insensitively) and emits one
presence event per membership; the reserved guest identity never mutates
presence. -/
def set_user_online (db : Db) (username : String) (now : Int) :
    Db × List ServerMessage :=
  if username == "guest" then
    (db, [])
  else
    let updated := db.serverMembers.map (fun m =>
      if asciiLower m.username == asciiLower username then
        { m with is_online := 1, last_seen := now }
      else m)
    let matching := db.serverMembers.filter
      (fun m => asciiLower m.username == asciiLower username)
    ({ db with serverMembers := updated },
     matching.map (fun m => .UserOnlineStatusChanged m.server_name username true))

/-- `websocket/connection.rs::ConnectionManager::set_user_offline`: the
`online=false` mirror of `set_user_online`. -/
def set_user_offline (db : Db) (username : String) (now : Int) :
    Db × List ServerMessage :=
  if username == "guest" then
    (db, [])
  else
    let updated := db.serverMembers.map (fun m =>
      if asciiLower m.username == asciiLower username then
        { m with is_online := 0, last_seen := now }
      else m)
    let matching := db.serverMembers.filter
      (fun m => asciiLower m.username == asciiLower username)
    ({ db with serverMembers := updated },
     matching.map (fun m => .UserOnlineStatusChanged m.server_name username false))

/-- The connection registry of `ConnectionManager` together with the
identity owning each live `handle_connection` invocation.  The source map
stores `connection_id -> broadcast sender`; the owning username lives in
the running `handle_connection` task for that id. -/
abbrev Connections := List (String × String)

/-- Connection setup in
`websocket/connection.rs::ConnectionManager::handle_connection`: register
the connection id, then mark the identity online. -/
def ws_connect (conns : Connections) (db : Db) (connection_id : String)
    (username : String) (now : Int) : Connections × Db × List ServerMessage :=
  let conns1 := conns ++ [(connection_id, username)]
  let r := set_user_online db username now
  (conns1, r.1, r.2)

/-- Connection teardown in
`websocket/connection.rs::ConnectionManager::handle_connection`: the
reader task removes the connection id from the registry, and after the
task pair finishes, `set_user_offline` runs for the owning identity —
unconditionally, whatever else is still registered. -/
def ws_disconnect (conns : Connections) (db : Db) (connection_id : String)
    (username : String) (now : Int) : Connections × Db × List ServerMessage :=
  let conns1 := conns.filter (fun c => c.1 != connection_id)
  let r := set_user_offline db username now
  (conns1, r.1, r.2)

/-! ## Concrete fixtures used by witnesses and counterexamples -/

/-- A profanity primitive that never flags anything. -/
def rcNone : Rustrict :=
  { isInappropriate := fun _ => false
    censor := fun s => s }

/-- A profanity primitive flagging exactly the token "darn" and censoring
it to stars, mirroring the star-replacement behaviour of `rustrict`. -/
def rcStar : Rustrict :=
  { isInappropriate := fun s => s == "darn"
    censor := fun s => if s == "darn" then "****" else s }

/-- Fixture user row. -/
def mkUser (name : String) (admin : Int) : UserRow :=
  { username := name
    password_hash := "h"
    password_type := "text"
    word_sequence := none
    profile_type := "identicon"
    avatar_color := none
    created_at := 0
    last_login := none
    login_attempts := 0
    account_locked := 0
    lock_until := none
    is_admin := admin }

/-- Fixture server row. -/
def mkServer (name creator : String) : ServerRow :=
  { name := name
    creator_username := creator
    created_at := 0
    is_active := 1
    member_count := 1
    channel_count := 1 }

/-- Fixture membership row. -/
def mkMember (server user role : String) (online : Int) : ServerMemberRow :=
  { server_name := server
    username := user
    role := role
    joined_at := 0
    last_seen := 0
    is_online := online
    position := 0 }

/-- Fixture channel row. -/
def mkChannel (id server : String) (active : Int) : ChannelRow :=
  { id := id
    server_name := server
    name := "general"
    created_at := 0
    is_active := active
    message_count := 0
    position := 0 }

/-- Fixture message row. -/
def mkMsg (id : String) (ch dm : Option String) (sender : String) : MessageRow :=
  { id := id
    channel_id := ch
    dm_id := dm
    sender_username := sender
    content := "hi"
    filtered_content := none
    content_type := "text"
    created_at := 0
    edited_at := none
    is_deleted := 0
    filter_status := "clean" }

/-- The empty store. -/
def emptyDb : Db :=
  { users := []
    servers := []
    serverMembers := []
    channels := []
    directMessages := []
    messages := []
    files := []
    fileAttachments := []
    bannedUsernames := []
    serverBans := []
    loginAttempts := [] }

/-- Fixture store for the send-message claims: server "S" with channel
"c1", member "bob". -/
def sendDb : Db :=
  { emptyDb with
    users := [mkUser "bob" 0]
    servers := [mkServer "S" "bob"]
    serverMembers := [mkMember "S" "bob" "member" 0]
    channels := [mkChannel "c1" "S" 1] }

/-- A 4001-character content string. -/
def longContent : String := String.mk (List.replicate 4001 'a')

theorem longContent_length : longContent.length = 4001 := by
  have h : longContent.length = (List.replicate 4001 'a').length := rfl
  rw [h, List.length_replicate]

theorem longContent_ne_empty : (longContent == "") = false := by
  have h : longContent ≠ "" := by
    intro h
    have := longContent_length
    rw [h] at this
    simp at this
  simpa using h

/-- On the `sendDb` fixture, a channel send by "bob" reduces to one
appended clean message row, whatever the content (the `rcNone` primitive
flags nothing). -/
theorem sendDb_channel_send (content mid : String) (now : Int) :
    send_message rcNone sendDb
      { target_type := .Channel, target_id := "c1", content := content,
        content_type := "text", file_id := none } "bob" mid now =
    ({ sendDb with messages :=
        [⟨mid, some "c1", none, "bob", content, none, "text", now, none, 0, "clean"⟩] },
     .ok ⟨⟨mid, some "c1", none, "bob", content, none, "text", now, none, 0, "clean"⟩,
          "identicon", none⟩) := rfl

/-! ## Claims -/

/-- C1: the spec requires `sendMessage` to reject empty or over-long
content with a validation error before persisting, and the repo even ships
`utils/validation.rs::validate_message_content` enforcing exactly those
bounds — but `services/messaging.rs::send_message` never invokes it (nor
any other length check): a call with empty content (and likewise one with
4001-unit content) sails past validation, is persisted, and returns
success.  This theorem evaluates the code at the failing inputs. -/
theorem c1_send_message_skips_content_validation :
    validate_message_content "" =
      Except.error (AppError.Validation "Message content cannot be empty") ∧
    (send_message rcNone sendDb
      { target_type := .Channel, target_id := "c1", content := "",
        content_type := "text", file_id := none } "bob" "m1" 5).2.isOk = true ∧
    ((send_message rcNone sendDb
      { target_type := .Channel, target_id := "c1", content := "",
        content_type := "text", file_id := none } "bob" "m1" 5).1.messages.map
        (fun m => m.content)) = [""] ∧
    validate_message_content longContent =
      Except.error (AppError.Validation "Message content must be at most 4000 characters long") ∧
    (send_message rcNone sendDb
      { target_type := .Channel, target_id := "c1", content := longContent,
        content_type := "text", file_id := none } "bob" "m2" 5).2.isOk = true ∧
    ((send_message rcNone sendDb
      { target_type := .Channel, target_id := "c1", content := longContent,
        content_type := "text", file_id := none } "bob" "m2" 5).1.messages.map
        (fun m => m.content.length)) = [4001] := by
  refine ⟨rfl, ?_, ?_, ?_, ?_, ?_⟩
  · rw [sendDb_channel_send]
    rfl
  · rw [sendDb_channel_send]
    rfl
  · rw [validate_message_content, longContent_ne_empty]
    simp [longContent_length]
  · rw [sendDb_channel_send]
    rfl
  · rw [sendDb_channel_send]
    simp [longContent_length]

/-- Fixture store for the presence claims: "alice" is an online member of
community "S". -/
def presenceDb : Db :=
  { emptyDb with serverMembers := [mkMember "S" "alice" "member" 1] }

/-- C2, counterexample: with two live connections for "alice", tearing
down just one of them already flips her membership offline and emits a
`PresenceChanged online=false` event — the claim says presence must stay
online while another live connection remains.  (The registry never tracks
which identity owns a connection, so `handle_connection` runs
`set_user_offline` unconditionally.) -/
theorem c2_one_of_two_disconnects_goes_offline :
    (ws_disconnect [("c1", "alice"), ("c2", "alice")] presenceDb "c1" "alice" 7).1 =
      [("c2", "alice")] ∧
    ((ws_disconnect [("c1", "alice"), ("c2", "alice")] presenceDb "c1" "alice" 7).2.1).serverMembers.map
      (fun m => m.is_online) = [0] ∧
    (ws_disconnect [("c1", "alice"), ("c2", "alice")] presenceDb "c1" "alice" 7).2.2 =
      [ServerMessage.UserOnlineStatusChanged "S" "alice" false] := by
  refine ⟨rfl, ?_, ?_⟩ <;> decide

/-- C2, amended: every disconnect of a non-guest identity performs the
offline transition — it removes the connection id from the registry, sets
`is_online = 0` on every membership of the identity (case-insensitively),
and emits exactly one `PresenceChanged online=false` event per membership —
regardless of how many other live connections the identity still has.
Only guests never mutate presence. -/
theorem c2_disconnect_always_sets_offline
    (conns : Connections) (db : Db) (cid username : String) (now : Int)
    (hguest : (username == "guest") = false) :
    (ws_disconnect conns db cid username now).1 = conns.filter (fun c => c.1 != cid) ∧
    (∀ m ∈ ((ws_disconnect conns db cid username now).2.1).serverMembers,
        asciiLower m.username = asciiLower username → m.is_online = 0) ∧
    (ws_disconnect conns db cid username now).2.2 =
      (db.serverMembers.filter (fun m => asciiLower m.username == asciiLower username)).map
        (fun m => ServerMessage.UserOnlineStatusChanged m.server_name username false) := by
  refine ⟨rfl, ?_, ?_⟩
  · intro m hm hlow
    simp only [ws_disconnect, set_user_offline, hguest, Bool.false_eq_true, if_false,
      List.mem_map] at hm
    obtain ⟨m0, hm0, hEq⟩ := hm
    by_cases hc : (asciiLower m0.username == asciiLower username) = true
    · rw [if_pos hc] at hEq
      rw [← hEq]
    · rw [if_neg (by simp [hc])] at hEq
      subst hEq
      exact absurd (beq_iff_eq.mpr hlow) (by simp [hc])
  · simp only [ws_disconnect, set_user_offline, hguest, Bool.false_eq_true, if_false]

/-- C2, witness for the amended theorem at a concrete input. -/
theorem c2_disconnect_always_sets_offline_witness :
    ("alice" == "guest") = false ∧
    (ws_disconnect [("c1", "alice")] presenceDb "c1" "alice" 7).2.2 =
      [ServerMessage.UserOnlineStatusChanged "S" "alice" false] := by
  refine ⟨by decide, ?_⟩
  have h := (c2_disconnect_always_sets_offline [("c1", "alice")] presenceDb "c1"
    "alice" 7 (by decide)).2.2
  rw [h]
  decide

/-- C3: a channel message whose content the profanity primitive flags is
stored with filter status "filtered" and a censored copy equal to the
primitive's output (non-empty and distinct from the raw content whenever
the primitive's censoring is, which the spec asserts of the external
`rustrict` collaborator and the witness instantiates); a direct-message
send stores filter status "clean" and no censored copy for every content —
the censorship primitive is never applied on the DM path. -/
theorem c3_censorship_applies_to_channels_only
    (rc : Rustrict) (db : Db) (req : SendMessageRequest) (sender mid : String)
    (now : Int) :
    (req.target_type = .Channel →
      rc.isInappropriate req.content = true →
      rc.censor req.content ≠ req.content →
      rc.censor req.content ≠ "" →
      ∀ mws, (send_message rc db req sender mid now).2 = .ok mws →
        mws.message.filter_status = "filtered" ∧
        mws.message.filtered_content = some (rc.censor req.content) ∧
        rc.censor req.content ≠ req.content ∧ rc.censor req.content ≠ "" ∧
        (send_message rc db req sender mid now).1.messages = db.messages ++ [mws.message]) ∧
    (req.target_type = .DirectMessage →
      ∀ mws, (send_message rc db req sender mid now).2 = .ok mws →
        mws.message.filter_status = "clean" ∧
        mws.message.filtered_content = none ∧
        (send_message rc db req sender mid now).1.messages = db.messages ++ [mws.message]) := by
  constructor
  · intro ht hin hne1 hne2 mws hok
    rcases hr : send_message rc db req sender mid now with ⟨db2, res⟩
    rw [hr] at hok
    simp only at hok ⊢
    simp only [send_message, ht] at hr
    unfold send_channel_message at hr
    split at hr
    · injection hr with h1 h2
      rw [← h2] at hok
      exact absurd hok (by simp)
    · simp only [filter_profanity, hin, if_true] at hr
      split at hr
      · injection hr with h1 h2
        rw [← h2] at hok
        exact absurd hok (by simp)
      · split at hr
        · split at hr
          · injection hr with h1 h2
            rw [← h2] at hok
            exact absurd hok (by simp)
          · injection hr with h1 h2
            rw [← h2] at hok
            exact absurd hok (by simp)
        · split at hr
          · injection hr with h1 h2
            rw [← h2] at hok
            rw [Except.ok.injEq] at hok
            subst hok
            rw [← h1]
            exact ⟨rfl, rfl, hne1, hne2, by simp⟩
          · injection hr with h1 h2
            rw [← h2] at hok
            rw [Except.ok.injEq] at hok
            subst hok
            rw [← h1]
            exact ⟨rfl, rfl, hne1, hne2, by simp⟩
  · intro ht mws hok
    rcases hr : send_message rc db req sender mid now with ⟨db2, res⟩
    rw [hr] at hok
    simp only at hok ⊢
    simp only [send_message, ht] at hr
    unfold send_dm_message at hr
    split at hr
    · injection hr with h1 h2
      rw [← h2] at hok
      exact absurd hok (by simp)
    · split at hr
      · injection hr with h1 h2
        rw [← h2] at hok
        exact absurd hok (by simp)
      · simp only at hr
        split at hr
        · split at hr
          · injection hr with h1 h2
            rw [← h2] at hok
            exact absurd hok (by simp)
          · injection hr with h1 h2
            rw [← h2] at hok
            exact absurd hok (by simp)
        · split at hr
          · injection hr with h1 h2
            rw [← h2] at hok
            rw [Except.ok.injEq] at hok
            subst hok
            rw [← h1]
            exact ⟨rfl, rfl, by simp⟩
          · injection hr with h1 h2
            rw [← h2] at hok
            rw [Except.ok.injEq] at hok
            subst hok
            rw [← h1]
            exact ⟨rfl, rfl, by simp⟩

/-- C3 witness fixture: flagged channel request. -/
def c3reqC : SendMessageRequest :=
  { target_type := .Channel, target_id := "c1", content := "darn",
    content_type := "text", file_id := none }

/-- C3 witness fixture: the enriched message the flagged channel send returns. -/
def c3mwsC : MessageWithSender :=
  ⟨⟨"m1", some "c1", none, "bob", "darn", some "****", "text", 5, none, 0, "filtered"⟩,
   "identicon", none⟩

/-- C3 witness fixture: store with a self-DM "d1" for "bob". -/
def c3dmDb : Db :=
  { sendDb with directMessages := [⟨"d1", "bob", "bob", 0, none, 0, 1⟩] }

/-- C3 witness fixture: DM request carrying the same flagged token. -/
def c3reqD : SendMessageRequest :=
  { target_type := .DirectMessage, target_id := "d1", content := "darn",
    content_type := "text", file_id := none }

/-- C3 witness fixture: the enriched message the DM send returns. -/
def c3mwsD : MessageWithSender :=
  ⟨⟨"m2", none, some "d1", "bob", "darn", none, "text", 5, none, 0, "clean"⟩,
   "identicon", none⟩

/-- C3, witness: a concrete flagged channel send and a concrete DM send of
the same token, with the star-censoring primitive. -/
theorem c3_censorship_witness :
    (c3mwsC.message.filter_status = "filtered" ∧
     c3mwsC.message.filtered_content = some (rcStar.censor "darn") ∧
     rcStar.censor "darn" ≠ "darn" ∧ rcStar.censor "darn" ≠ "" ∧
     (send_message rcStar sendDb c3reqC "bob" "m1" 5).1.messages =
       sendDb.messages ++ [c3mwsC.message]) ∧
    (c3mwsD.message.filter_status = "clean" ∧
     c3mwsD.message.filtered_content = none ∧
     (send_message rcStar c3dmDb c3reqD "bob" "m2" 5).1.messages =
       c3dmDb.messages ++ [c3mwsD.message]) :=
  ⟨(c3_censorship_applies_to_channels_only rcStar sendDb c3reqC "bob" "m1" 5).1
      rfl (by decide) (by decide) (by decide) c3mwsC (by decide),
   (c3_censorship_applies_to_channels_only rcStar c3dmDb c3reqD "bob" "m2" 5).2
      rfl c3mwsD (by decide)⟩

/-- The soft-deleted messages table produced by a successful
`delete_message` (`UPDATE messages SET is_deleted = 1 WHERE id = ?`). -/
def soft_delete_messages (db : Db) (message_id : String) : Db :=
  { db with messages := db.messages.map (fun m => if m.id == message_id then { m with is_deleted := 1 } else m) }

/-- C4: for an existing message correctly addressed by its target,
`delete_message` authorizes in strict priority order: (1) the original
sender always succeeds, whatever their role; (2) otherwise a requester
with the site-admin flag succeeds; (3) otherwise a requester holding the
"admin" role in the channel's owning community succeeds — but only when
the target is a channel; a community admin can never delete a
conversation message that way (4), and every other requester receives an
authorization error with the message row left unchanged (4, 5). -/
theorem c4_delete_message_authorization_priority
    (db : Db) (tt : MessageTarget) (tid mid req : String) (msg : MessageRow)
    (hfind : db.messages.find? (fun m => m.id == mid) = some msg)
    (haddr : match tt with
      | .Channel => msg.channel_id = some tid
      | .DirectMessage => msg.dm_id = some tid) :
    (msg.sender_username = req →
      delete_message db tt tid mid req =
        (soft_delete_messages db mid, .ok msg)) ∧
    (msg.sender_username ≠ req →
      ∀ u, db.users.find? (fun x => x.username == req) = some u →
      u.is_admin = 1 →
      delete_message db tt tid mid req =
        (soft_delete_messages db mid, .ok msg)) ∧
    (tt = .Channel →
      msg.sender_username ≠ req →
      ∀ u, db.users.find? (fun x => x.username == req) = some u →
      u.is_admin ≠ 1 →
      ∀ ch, db.channels.find? (fun c => c.id == tid) = some ch →
      ∀ mem, db.serverMembers.find?
          (fun m => m.server_name == ch.server_name && m.username == req) = some mem →
      mem.role = "admin" →
      delete_message db tt tid mid req =
        (soft_delete_messages db mid, .ok msg)) ∧
    (tt = .DirectMessage →
      msg.sender_username ≠ req →
      ∀ u, db.users.find? (fun x => x.username == req) = some u →
      u.is_admin ≠ 1 →
      delete_message db tt tid mid req =
        (db, .error (.Unauthorized "You do not have permission to delete this message"))) ∧
    (tt = .Channel →
      msg.sender_username ≠ req →
      ∀ u, db.users.find? (fun x => x.username == req) = some u →
      u.is_admin ≠ 1 →
      ∀ ch, db.channels.find? (fun c => c.id == tid) = some ch →
      (∀ mem, db.serverMembers.find?
          (fun m => m.server_name == ch.server_name && m.username == req) = some mem →
        mem.role ≠ "admin") →
      delete_message db tt tid mid req =
        (db, .error (.Unauthorized "You do not have permission to delete this message"))) := by
  cases tt with
  | Channel =>
    have htgt : (msg.channel_id == some tid) = true := beq_iff_eq.mpr haddr
    refine ⟨?_, ?_, ?_, ?_, ?_⟩
    · intro hs
      simp [delete_message, soft_delete_messages, hfind, htgt, hs]
    · intro hs u hu hadm
      simp [delete_message, soft_delete_messages, hfind, htgt, beq_eq_false_iff_ne.mpr hs, hu, hadm]
    · intro _ hs u hu hadm ch hch mem hmem hrole
      simp [delete_message, soft_delete_messages, hfind, htgt, beq_eq_false_iff_ne.mpr hs, hu, hadm,
        hch, hmem, hrole]
    · intro h
      exact absurd h (by simp)
    · intro _ hs u hu hadm ch hch hmem
      cases hmemfind : db.serverMembers.find?
          (fun m => m.server_name == ch.server_name && m.username == req) with
      | none =>
        simp [delete_message, soft_delete_messages, hfind, htgt, beq_eq_false_iff_ne.mpr hs, hu, hadm,
          hch, hmemfind]
      | some mem =>
        simp [delete_message, soft_delete_messages, hfind, htgt, beq_eq_false_iff_ne.mpr hs, hu, hadm,
          hch, hmemfind, beq_eq_false_iff_ne.mpr (hmem mem hmemfind)]
  | DirectMessage =>
    have htgt : (msg.dm_id == some tid) = true := beq_iff_eq.mpr haddr
    refine ⟨?_, ?_, ?_, ?_, ?_⟩
    · intro hs
      simp [delete_message, soft_delete_messages, hfind, htgt, hs]
    · intro hs u hu hadm
      simp [delete_message, soft_delete_messages, hfind, htgt, beq_eq_false_iff_ne.mpr hs, hu, hadm]
    · intro h
      exact absurd h (by simp)
    · intro _ hs u hu hadm
      simp [delete_message, soft_delete_messages, hfind, htgt, beq_eq_false_iff_ne.mpr hs, hu, hadm]
    · intro h
      exact absurd h (by simp)

/-- C4 witness fixture: store holding one channel message by "bob" and one
DM message by "bob", plus a non-admin member "carol" and a community admin
"dave". -/
def deleteDb : Db :=
  { emptyDb with
    users := [mkUser "bob" 0, mkUser "carol" 0, mkUser "dave" 0]
    servers := [mkServer "S" "bob"]
    serverMembers := [mkMember "S" "bob" "member" 0, mkMember "S" "carol" "member" 0,
                      mkMember "S" "dave" "admin" 0]
    channels := [mkChannel "c1" "S" 1]
    directMessages := [⟨"d1", "bob", "bob", 0, none, 0, 1⟩]
    messages := [mkMsg "m1" (some "c1") none "bob", mkMsg "m2" none (some "d1") "bob"] }

/-- C4, witness: on `deleteDb`, the sender deletes their own channel
message; the community admin "dave" deletes bob's channel message but is
rejected on bob's DM message; the plain member "carol" is rejected. -/
theorem c4_delete_message_authorization_priority_witness :
    (delete_message deleteDb .Channel "c1" "m1" "bob" =
      (soft_delete_messages deleteDb "m1", .ok (mkMsg "m1" (some "c1") none "bob"))) ∧
    (delete_message deleteDb .Channel "c1" "m1" "dave" =
      (soft_delete_messages deleteDb "m1", .ok (mkMsg "m1" (some "c1") none "bob"))) ∧
    (delete_message deleteDb .DirectMessage "d1" "m2" "dave" =
      (deleteDb, .error (.Unauthorized "You do not have permission to delete this message"))) ∧
    (delete_message deleteDb .Channel "c1" "m1" "carol" =
      (deleteDb, .error (.Unauthorized "You do not have permission to delete this message"))) :=
  ⟨(c4_delete_message_authorization_priority deleteDb .Channel "c1" "m1" "bob"
      (mkMsg "m1" (some "c1") none "bob") (by decide) (by decide)).1 rfl,
   (c4_delete_message_authorization_priority deleteDb .Channel "c1" "m1" "dave"
      (mkMsg "m1" (some "c1") none "bob") (by decide) (by decide)).2.2.1 rfl
      (by decide) (mkUser "dave" 0) (by decide) (by decide)
      (mkChannel "c1" "S" 1) (by decide) (mkMember "S" "dave" "admin" 0)
      (by decide) rfl,
   (c4_delete_message_authorization_priority deleteDb .DirectMessage "d1" "m2" "dave"
      (mkMsg "m2" none (some "d1") "bob") (by decide) (by decide)).2.2.2.1 rfl
      (by decide) (mkUser "dave" 0) (by decide) (by decide),
   (c4_delete_message_authorization_priority deleteDb .Channel "c1" "m1" "carol"
      (mkMsg "m1" (some "c1") none "bob") (by decide) (by decide)).2.2.2.2 rfl
      (by decide) (mkUser "carol" 0) (by decide) (by decide)
      (mkChannel "c1" "S" 1) (by decide)
      (fun mem hmem => by
        have hc : deleteDb.serverMembers.find?
            (fun m => m.server_name == (mkChannel "c1" "S" 1).server_name &&
              m.username == "carol") = some (mkMember "S" "carol" "member" 0) := by
          decide
        rw [hc] at hmem
        cases hmem
        decide)⟩

/-- C5: when the message exists but does not belong to the stated target
(different channel/conversation id, or the other target kind entirely),
`delete_message` rejects with a bad-request error before any
authorization or mutation — the store is returned unchanged, whoever the
requester is. -/
theorem c5_cross_target_delete_rejected
    (db : Db) (tt : MessageTarget) (tid mid req : String) (msg : MessageRow)
    (hfind : db.messages.find? (fun m => m.id == mid) = some msg) :
    (tt = .Channel → msg.channel_id ≠ some tid →
      delete_message db tt tid mid req =
        (db, .error (.BadRequest "Message does not belong to this channel"))) ∧
    (tt = .DirectMessage → msg.dm_id ≠ some tid →
      delete_message db tt tid mid req =
        (db, .error (.BadRequest "Message does not belong to this DM"))) := by
  cases tt with
  | Channel =>
    constructor
    · intro _ hne
      simp [delete_message, hfind, beq_eq_false_iff_ne.mpr hne]
    · intro h
      exact absurd h (by simp)
  | DirectMessage =>
    constructor
    · intro h
      exact absurd h (by simp)
    · intro _ hne
      simp [delete_message, hfind, beq_eq_false_iff_ne.mpr hne]

/-- C5, witness: deleting the channel message "m1" through the wrong
channel id, and through a conversation target, both yield bad-request
errors with the store unchanged — even for the sender "bob". -/
theorem c5_cross_target_delete_rejected_witness :
    (delete_message deleteDb .Channel "c2" "m1" "bob" =
      (deleteDb, .error (.BadRequest "Message does not belong to this channel"))) ∧
    (delete_message deleteDb .DirectMessage "d1" "m1" "bob" =
      (deleteDb, .error (.BadRequest "Message does not belong to this DM"))) :=
  ⟨(c5_cross_target_delete_rejected deleteDb .Channel "c2" "m1" "bob"
      (mkMsg "m1" (some "c1") none "bob") (by decide)).1 rfl (by decide),
   (c5_cross_target_delete_rejected deleteDb .DirectMessage "d1" "m1" "bob"
      (mkMsg "m1" (some "c1") none "bob") (by decide)).2 rfl (by decide)⟩

/-- `auth.rs` rejects any username whose lowercase form appears in the
ban log, whatever else holds of the string. -/
theorem auth_validate_username_banned (rc : Rustrict) (db : Db) (u : String)
    (hb : 0 < db.bannedUsernames.countP
      (fun b => asciiLower b.username == asciiLower u)) :
    ∃ e, auth_validate_username rc db u = .error e := by
  by_cases h1 : (u == "") = true
  · exact ⟨.Validation "Username cannot be empty",
      by simp [auth_validate_username, h1]⟩
  · by_cases h2 : u.length > 64
    · exact ⟨.Validation "Username must be at most 64 characters long",
        by simp [auth_validate_username, h1, h2]⟩
    · by_cases h3 : contains_profanity rc u = true
      · exact ⟨.Validation "Username contains inappropriate language",
          by simp [auth_validate_username, h1, h2, h3]⟩
      · exact ⟨.BadRequest "Username is permanently banned",
          by simp [auth_validate_username, h1, h2, h3, hb]⟩

/-- Registration halts inside `validate_username` — before any row is
inserted — whenever the ban log holds the requested name
(case-insensitively). -/
theorem register_user_rejected_when_banned (rc : Rustrict)
    (hash tokenOf : String → String) (db : Db) (request : CreateUserRequest)
    (now : Int) (dmid : String)
    (hb : 0 < db.bannedUsernames.countP
      (fun b => asciiLower b.username == asciiLower request.username)) :
    (register_user rc hash tokenOf db request now dmid).1 = db ∧
    ∃ e, (register_user rc hash tokenOf db request now dmid).2 = .error e := by
  obtain ⟨e, he⟩ := auth_validate_username_banned rc db request.username hb
  exact ⟨by simp [register_user, he], e, by simp [register_user, he]⟩

/-- C6: after a successful `site_ban_user` of `target`, (a) the ban-log
row is present and this flow never clears it, (b) every later
registration attempt for the username in any letter case is rejected with
no user row inserted, and (c) no live row referencing the target as
message sender, community member, conversation participant, file
uploader, or user identity survives the cascade (all matched
case-insensitively). -/
theorem c6_site_ban_permanent_and_cascade_clean (rc : Rustrict)
    (hash tokenOf : String → String) (db : Db) (target requester u2 : String)
    (pw : Option String) (ws : Option (List String)) (pt : ProfileType)
    (now : Int) (dmid : String)
    (hban : (site_ban_user db target requester).2 = .ok ())
    (hcase : asciiLower u2 = asciiLower target) :
    BannedUsernameRow.mk target requester "Site ban" ∈
      (site_ban_user db target requester).1.bannedUsernames ∧
    ((register_user rc hash tokenOf (site_ban_user db target requester).1
        ⟨u2, pw, ws, pt⟩ now dmid).1 = (site_ban_user db target requester).1 ∧
      ∃ e, (register_user rc hash tokenOf (site_ban_user db target requester).1
        ⟨u2, pw, ws, pt⟩ now dmid).2 = .error e) ∧
    (∀ m ∈ (site_ban_user db target requester).1.messages,
      asciiLower m.sender_username ≠ asciiLower target) ∧
    (∀ m ∈ (site_ban_user db target requester).1.serverMembers,
      asciiLower m.username ≠ asciiLower target) ∧
    (∀ d ∈ (site_ban_user db target requester).1.directMessages,
      asciiLower d.username1 ≠ asciiLower target ∧
      asciiLower d.username2 ≠ asciiLower target) ∧
    (∀ f ∈ (site_ban_user db target requester).1.files,
      asciiLower f.uploader_username ≠ asciiLower target) ∧
    (∀ u ∈ (site_ban_user db target requester).1.users,
      asciiLower u.username ≠ asciiLower target) := by
  rcases hr : site_ban_user db target requester with ⟨db1, res⟩
  rw [hr] at hban
  simp only at hban
  simp only [site_ban_user] at hr
  split at hr
  · injection hr with h1 h2
    rw [← h2] at hban
    exact absurd hban (by simp)
  · split at hr
    · injection hr with h1 h2
      rw [← h2] at hban
      exact absurd hban (by simp)
    · split at hr
      · injection hr with h1 h2
        rw [← h2] at hban
        exact absurd hban (by simp)
      · injection hr with h1 h2
        subst h1
        refine ⟨by simp, ?_, ?_, ?_, ?_, ?_, ?_⟩
        · apply register_user_rejected_when_banned
          apply List.countP_pos_iff.mpr
          refine ⟨BannedUsernameRow.mk target requester "Site ban", by simp, ?_⟩
          simp [hcase]
        · intro m hm
          simp only [List.mem_filter] at hm
          simpa using hm.2
        · intro m hm
          simp only [List.mem_filter] at hm
          simpa using hm.2
        · intro d hd
          simp only [List.mem_filter] at hd
          simpa using hd.2
        · intro f hf
          simp only [List.mem_filter] at hf
          simpa using hf.2
        · intro u hu
          simp only [List.mem_filter] at hu
          simpa using hu.2

/-- C6 witness fixture: a site admin "root" and a victim "bob" with a
message, a membership, a conversation and a file. -/
def banDb : Db :=
  { emptyDb with
    users := [mkUser "root" 1, mkUser "bob" 0]
    servers := [mkServer "S" "root"]
    serverMembers := [mkMember "S" "bob" "member" 0]
    channels := [mkChannel "c1" "S" 1]
    directMessages := [⟨"d1", "bob", "bob", 0, none, 0, 1⟩]
    messages := [mkMsg "m1" (some "c1") none "bob"]
    files := [⟨"f1", "bob", 0⟩] }

/-- C6, witness: concrete ban of "bob" by "root", then a registration
attempt as "BOB". -/
theorem c6_site_ban_witness :
    ((register_user rcNone (fun s => s) (fun s => s)
        (site_ban_user banDb "bob" "root").1
        ⟨"BOB", some "pw", none, .Identicon ""⟩ 9 "dm9").1 =
      (site_ban_user banDb "bob" "root").1) ∧
    (∃ e, (register_user rcNone (fun s => s) (fun s => s)
        (site_ban_user banDb "bob" "root").1
        ⟨"BOB", some "pw", none, .Identicon ""⟩ 9 "dm9").2 = .error e) ∧
    (∀ u ∈ (site_ban_user banDb "bob" "root").1.users,
      asciiLower u.username ≠ asciiLower "bob") := by
  have h := c6_site_ban_permanent_and_cascade_clean rcNone (fun s => s)
    (fun s => s) banDb "bob" "root" "BOB" (some "pw") none (.Identicon "")
    9 "dm9" (by decide) (by decide)
  exact ⟨h.2.1.1, h.2.1.2, h.2.2.2.2.2.2⟩

/-- C7 fixture: community "A" has exactly one active channel "a1";
community "B" has two. -/
def channelDb : Db :=
  { emptyDb with
    servers := [mkServer "A" "alice", mkServer "B" "bob"]
    channels := [mkChannel "a1" "A" 1, mkChannel "b1" "B" 1, mkChannel "b2" "B" 1] }

/-- C7, counterexample: `delete_channel` counts the active channels of the
caller-stated community, not of the community owning the channel.  Stating
"B" while deleting "a1" passes the guard (B has two active channels) and
deactivates community A's only active channel — deletion succeeded although
the channel's community had exactly one active channel, so the invariant
"every community always retains at least one active channel" fails. -/
theorem c7_mismatched_delete_breaks_last_channel_guard :
    channelDb.channels.countP (fun c => c.server_name == "A" && c.is_active == 1) = 1 ∧
    (delete_channel channelDb "a1" "B").2 = .ok () ∧
    (delete_channel channelDb "a1" "B").1.channels.countP
      (fun c => c.server_name == "A" && c.is_active == 1) = 0 := by
  refine ⟨?_, ?_, ?_⟩ <;> decide

/-- C7, amended: for a call whose stated community is the channel's own
community (which every route-generated call is meant to be), the last
active channel cannot be deleted — with at most one active channel the
call is rejected with a bad request and the store (hence the channel row)
is left unchanged — and a deletion only ever succeeds when the stated
community has at least two active channels.  The guard keys on the stated
community, so a mismatched call can evade it (see the counterexample). -/
theorem c7_matched_last_channel_delete_rejected
    (db : Db) (cid sname : String) (ch : ChannelRow)
    (hfind : db.channels.find? (fun c => c.id == cid) = some ch)
    (hmatch : ch.server_name = sname) :
    (db.channels.countP (fun c => c.server_name == sname && c.is_active == 1) ≤ 1 →
      delete_channel db cid sname =
        (db, .error (.BadRequest "Cannot delete the last channel"))) ∧
    ((delete_channel db cid sname).2 = .ok () →
      2 ≤ db.channels.countP (fun c => c.server_name == sname && c.is_active == 1)) := by
  constructor
  · intro hle
    simp [delete_channel, hle]
  · intro hok
    by_cases h : db.channels.countP
        (fun c => c.server_name == sname && c.is_active == 1) ≤ 1
    · rw [delete_channel] at hok
      rw [if_pos h] at hok
      exact absurd hok (by simp)
    · omega

/-- C7 fixture: community "A" alone, holding its single active channel. -/
def lastChannelDb : Db :=
  { emptyDb with
    servers := [mkServer "A" "alice"]
    channels := [mkChannel "a1" "A" 1] }

/-- C7, witness: deleting the only active channel of "A" through the
matching community name is rejected and the store is unchanged. -/
theorem c7_matched_last_channel_delete_rejected_witness :
    delete_channel lastChannelDb "a1" "A" =
      (lastChannelDb, .error (.BadRequest "Cannot delete the last channel")) :=
  (c7_matched_last_channel_delete_rejected lastChannelDb "a1" "A"
    (mkChannel "a1" "A" 1) (by decide) (by decide)).1 (by decide)

/-- C8 fixture: "root" is site admin; "carol" is a plain member of "S";
"bob" has no membership row in "S" at all. -/
def roleDb : Db :=
  { emptyDb with
    users := [mkUser "bob" 0, mkUser "carol" 0, mkUser "root" 1]
    servers := [mkServer "S" "root"]
    serverMembers := [mkMember "S" "carol" "member" 0] }

/-- C8, counterexample: the generic resolver `require_admin` returns one
and the same error for the non-member "bob" and for the member-but-not-
admin "carol" — the claim that the resolver surfaces the two failure
cases as different errors is false at this input. -/
theorem c8_require_admin_identical_errors :
    require_admin roleDb "bob" (some "S") none =
      .error (.Unauthorized "Server admin privileges required") ∧
    require_admin roleDb "carol" (some "S") none =
      .error (.Unauthorized "Server admin privileges required") := by
  constructor <;> decide

/-- C8, amended: the generic resolver `require_admin` does NOT
distinguish the two failure cases — a non-site-admin caller receives the
identical "Server admin privileges required" error whether they have no
membership row in the scope community or are a member with a non-admin
role.  The distinction the spec describes exists only in
`server_ban_user`'s inline authorization, which returns "Not a member of
this server" for the former and "Server admin privileges required" for
the latter. -/
theorem c8_resolver_uniform_ban_distinguishes
    (db : Db) (uname sname target : String) (reason : Option String)
    (now : Int) (u : UserRow)
    (hu : db.users.find? (fun x => x.username == uname) = some u)
    (hadm : u.is_admin = 0) :
    (db.serverMembers.find?
        (fun m => m.server_name == sname && m.username == uname) = none →
      require_admin db uname (some sname) none =
        .error (.Unauthorized "Server admin privileges required")) ∧
    ((∀ m ∈ db.serverMembers,
        (m.server_name == sname && m.username == uname) = true → m.role ≠ "admin") →
      require_admin db uname (some sname) none =
        .error (.Unauthorized "Server admin privileges required")) ∧
    ((sname == "RChat") = false →
      ∀ srv, db.servers.find? (fun s => s.name == sname) = some srv →
      srv.creator_username ≠ target →
      (db.serverMembers.find?
          (fun m => m.server_name == sname && m.username == uname) = none →
        server_ban_user db sname target uname reason now =
          (db, .error (.Unauthorized "Not a member of this server"))) ∧
      (∀ mem, db.serverMembers.find?
          (fun m => m.server_name == sname && m.username == uname) = some mem →
        mem.role ≠ "admin" →
        server_ban_user db sname target uname reason now =
          (db, .error (.Unauthorized "Server admin privileges required")))) := by
  have hflag : (u.is_admin == 1) = false := by simp [hadm]
  refine ⟨?_, ?_, ?_⟩
  · intro hnone
    have hcount : db.serverMembers.countP
        (fun m => m.server_name == sname && m.username == uname &&
          m.role == "admin") = 0 := by
      rw [List.countP_eq_zero]
      intro m hm hp
      have hnm := List.find?_eq_none.mp hnone m hm
      simp only [Bool.and_eq_true] at hp hnm
      tauto
    simp [require_admin, check_site_admin, check_server_admin, hu, hflag, hcount]
    try rfl
  · intro hall
    have hcount : db.serverMembers.countP
        (fun m => m.server_name == sname && m.username == uname &&
          m.role == "admin") = 0 := by
      rw [List.countP_eq_zero]
      intro m hm hp
      simp only [Bool.and_eq_true] at hp
      exact absurd (beq_iff_eq.mp hp.2) (hall m hm (by simp [hp.1.1, hp.1.2]))
    simp [require_admin, check_site_admin, check_server_admin, hu, hflag, hcount]
    try rfl
  · intro hrchat srv hsrv hcreator
    constructor
    · intro hnone
      simp [server_ban_user, hrchat, hsrv, beq_eq_false_iff_ne.mpr hcreator,
        hu, hadm, hnone]
    · intro mem hmem hrole
      simp [server_ban_user, hrchat, hsrv, beq_eq_false_iff_ne.mpr hcreator,
        hu, hadm, hmem, hrole]

/-- C8, witness: both resolver failures on `roleDb` yield the identical
error, while `server_ban_user` separates them. -/
theorem c8_resolver_uniform_ban_distinguishes_witness :
    require_admin roleDb "bob" (some "S") none =
      .error (.Unauthorized "Server admin privileges required") ∧
    require_admin roleDb "carol" (some "S") none =
      .error (.Unauthorized "Server admin privileges required") ∧
    server_ban_user roleDb "S" "victim" "bob" none 0 =
      (roleDb, .error (.Unauthorized "Not a member of this server")) ∧
    server_ban_user roleDb "S" "victim" "carol" none 0 =
      (roleDb, .error (.Unauthorized "Server admin privileges required")) := by
  have hbob := c8_resolver_uniform_ban_distinguishes roleDb "bob" "S" "victim" none 0
    (mkUser "bob" 0) (by decide) (by decide)
  have hcarol := c8_resolver_uniform_ban_distinguishes roleDb "carol" "S" "victim" none 0
    (mkUser "carol" 0) (by decide) (by decide)
  refine ⟨hbob.1 (by decide), ?_, ?_, ?_⟩
  · apply hcarol.2.1
    intro m hm hp
    have hcases : m = mkMember "S" "carol" "member" 0 := by
      simp [roleDb, emptyDb] at hm
      exact hm
    rw [hcases]
    decide
  · exact (hbob.2.2 (by decide) (mkServer "S" "root") (by decide) (by decide)).1
      (by decide)
  · exact (hcarol.2.2 (by decide) (mkServer "S" "root") (by decide) (by decide)).2
      (mkMember "S" "carol" "member" 0) (by decide) (by decide)

/-- C9: when the most recent recorded login attempt for the requested
username lies within the 3-second throttling window, `login_user` returns
the rate-limit error immediately: the store comes back unchanged — no
attempt row is recorded, no user row (attempt counter, lock state) is
mutated — and since the result holds for every users table and every
verifier, the credential store is never consulted. -/
theorem c9_login_throttled_before_credentials
    (db : Db) (request : LoginRequest) (ip : String)
    (verify : String → String → Bool) (tokenOf : String → String)
    (now : Int) (aid : String) (ts : Int)
    (hlast : ((db.loginAttempts.filter
      (fun a => a.username == request.username)).map (fun a => a.timestamp)).max? = some ts)
    (hwin : now - ts < 3) :
    login_user db request ip verify tokenOf now aid =
      (db, .error .RateLimitExceeded) ∧
    (∀ (users2 : List UserRow) (verify2 : String → String → Bool),
      login_user { db with users := users2 } request ip verify2 tokenOf now aid =
        ({ db with users := users2 }, .error .RateLimitExceeded)) := by
  constructor
  · simp [login_user, hlast, hwin]
  · intro users2 verify2
    simp [login_user, hlast, hwin]

/-- C9 witness fixture: one failed attempt for "bob" recorded at time 100. -/
def throttleDb : Db :=
  { emptyDb with
    users := [mkUser "bob" 0]
    loginAttempts := [⟨"a1", "bob", "ip", 0, 100, some "bob", some "Invalid password"⟩] }

/-- C9, witness: a follow-up login for "bob" at time 101 is rejected with
the rate-limit error and the store is untouched. -/
theorem c9_login_throttled_witness :
    login_user throttleDb ⟨"bob", some "pw", none⟩ "ip" (fun _ _ => true)
      (fun s => s) 101 "a2" = (throttleDb, .error .RateLimitExceeded) :=
  (c9_login_throttled_before_credentials throttleDb ⟨"bob", some "pw", none⟩ "ip"
    (fun _ _ => true) (fun s => s) 101 "a2" 100 (by decide) (by decide)).1

/-- `join_server` never touches the users table. -/
theorem join_server_users (db : Db) (sname uname : String) (now : Int) :
    (join_server db sname uname now).1.users = db.users := by
  unfold join_server
  dsimp only
  repeat' split
  all_goals rfl

/-- `get_or_create_dm` never touches the users table. -/
theorem get_or_create_dm_users (db : Db) (u1 u2 did : String) (now : Int) :
    (get_or_create_dm db u1 u2 did now).1.users = db.users := by
  unfold get_or_create_dm
  dsimp only
  repeat' split
  all_goals rfl

/-- C10: a successful registration appends exactly one user row, and that
row carries the site-admin flag precisely when no user besides the
reserved "system" user existed beforehand; hence every registration after
the first starts with the flag unset. -/
theorem c10_first_registered_user_is_site_admin
    (rc : Rustrict) (hash tokenOf : String → String) (db : Db)
    (request : CreateUserRequest) (now : Int) (dmid : String)
    (resp : RegisterResponse)
    (hok : (register_user rc hash tokenOf db request now dmid).2 = .ok resp) :
    ∃ u : UserRow,
      (register_user rc hash tokenOf db request now dmid).1.users = db.users ++ [u] ∧
      u.username = request.username ∧
      (u.is_admin = 1 ↔ db.users.countP (fun x => x.username != "system") = 0) ∧
      (resp.user.is_admin = true ↔ db.users.countP (fun x => x.username != "system") = 0) := by
  rcases hr : register_user rc hash tokenOf db request now dmid with ⟨db3, res⟩
  rw [hr] at hok
  simp only at hok ⊢
  simp only [register_user] at hr
  split at hr
  · injection hr with h1 h2
    rw [← h2] at hok
    exact absurd hok (by simp)
  · split at hr
    · injection hr with h1 h2
      rw [← h2] at hok
      exact absurd hok (by simp)
    · split at hr
      · injection hr with h1 h2
        rw [← h2] at hok
        exact absurd hok (by simp)
      · rename_i credentials password_type password_hash word_sequence hcred
        split at hr
        · injection hr with h1 h2
          rw [← h2] at hok
          exact absurd hok (by simp)
        · rename_i db2 srv heq
          injection hr with h1 h2
          rw [← h2] at hok
          rw [Except.ok.injEq] at hok
          refine ⟨User_new request.username password_hash password_type
            word_sequence request.profile_type
            (decide (db.users.countP (fun x => x.username != "system") = 0)) now,
            ?_, rfl, ?_, ?_⟩
          · rw [← h1]
            have hdb2 := congrArg Prod.fst heq
            simp only at hdb2
            rw [get_or_create_dm_users, ← hdb2, join_server_users]
          · by_cases hz : db.users.countP (fun x => x.username != "system") = 0 <;>
              simp [User_new, hz]
          · rw [← hok]
            by_cases hz : db.users.countP (fun x => x.username != "system") = 0 <;>
              simp [User_new, UserResponse.ofUser, hz]

/-- C10 witness fixture: a fresh store holding only the default "RChat"
community. -/
def regDb : Db :=
  { emptyDb with servers := [mkServer "RChat" "system"] }

/-- C10 witness fixture: the response the fresh-store registration returns. -/
def c10resp : RegisterResponse :=
  { user := { username := "alice", profile_type := "identicon", avatar_color := none, created_at := 3, is_admin := true }
    token := "alice"
    word_sequence := none }

/-- C10, witness: registering "alice" into the fresh store yields a user
row carrying the site-admin flag, matching the empty pre-state. -/
theorem c10_first_registered_user_is_site_admin_witness :
    ∃ u : UserRow,
      (register_user rcNone (fun s => s) (fun s => s) regDb
        ⟨"alice", some "pw", none, .Identicon ""⟩ 3 "dm1").1.users =
        regDb.users ++ [u] ∧
      u.username = "alice" ∧
      (u.is_admin = 1 ↔ regDb.users.countP (fun x => x.username != "system") = 0) ∧
      (c10resp.user.is_admin = true ↔
        regDb.users.countP (fun x => x.username != "system") = 0) :=
  c10_first_registered_user_is_site_admin rcNone (fun s => s) (fun s => s) regDb
    ⟨"alice", some "pw", none, .Identicon ""⟩ 3 "dm1" c10resp (by decide)

end RChat
